import Mathlib

/-!
Verification of the MCP-Network-CUPS print-job intake and access-control pipeline.

The TypeScript sources are shallowly embedded as pure Lean functions.  External
effects (path resolution, symlink resolution, the filesystem, the renderers,
the CUPS submission interface) are supplied as explicit environment records,
and the side effects each handler performs are recorded as an event trace,
so the handlers themselves become pure functions from (configuration,
environment, request) to (result, trace).
-/

/-! ## String helpers

Structural models of the JavaScript string primitives the sources use
(String.prototype.split, startsWith, endsWith, slice(1), toLowerCase, and
node's path.extname).  They operate on the character list underlying a Lean
String so that they reduce inside the kernel.
-/

/-- Splits a character list at every occurrence of the separator (the split
includes empty pieces, matching JavaScript split with a single-character
separator). -/
def splitCharsAux (sep : Char) : List Char → List Char → List (List Char)
  | [], acc => [acc.reverse]
  | c :: cs, acc =>
    if c = sep then acc.reverse :: splitCharsAux sep cs []
    else splitCharsAux sep cs (c :: acc)

/-- String form of splitCharsAux: models s.split(sep) for a one-character
separator. -/
def splitOnCharStr (sep : Char) (s : String) : List String :=
  (splitCharsAux sep s.data []).map String.mk

/-- Models String.prototype.startsWith. -/
def strStartsWith (pre s : String) : Bool := pre.data.isPrefixOf s.data

/-- Models String.prototype.endsWith. -/
def strEndsWith (s suffix : String) : Bool := suffix.data.isSuffixOf s.data

/-- Models String.prototype.toLowerCase (character-wise). -/
def lowerStr (s : String) : String := String.mk (s.data.map Char.toLower)

/-- Models String.prototype.slice(1): drops the first character. -/
def sliceFrom1 (s : String) : String := String.mk (s.data.drop 1)

/-- Models node path.extname: the suffix of the basename from its last dot,
empty when the basename has no dot after its first character; the bare
current/parent directory names have no extension. -/
def extname (p : String) : String :=
  let base := (splitOnCharStr '/' p).getLastD ""
  if base = "." ∨ base = ".." then ""
  else
    match base.data with
    | [] => ""
    | _ :: rest =>
      if rest.contains '.' then
        "." ++ String.mk ((rest.reverse.takeWhile (fun c => c ≠ '.')).reverse)
      else ""

/-- Byte count of a character in UTF-8, used to model
Buffer.byteLength(s, utf-8). -/
def charUtf8Size (c : Char) : Nat :=
  if c.toNat < 128 then 1 else if c.toNat < 2048 then 2
  else if c.toNat < 65536 then 3 else 4

/-- Models Buffer.byteLength(s, utf-8): total UTF-8 byte count. -/
def utf8Len (s : String) : Nat := (s.data.map charUtf8Size).sum

/-! ## Access Policy Engine (src/file-security.ts)

Paths that have already been resolved to absolute form are represented as
their separator-split component lists, i.e. the value of
absolutePath.split(sep) in the source; the raw caller-supplied path string is
kept opaque.  The operating-system services resolve (path.resolve) and
realpathSync are supplied by an environment record; realpath returns none
when resolution fails (the source catches that failure and falls back to the
unresolved absolute path). -/

/-- Environment for path validation: resolution of a raw path to absolute
components, and best-effort symlink resolution. -/
structure FsEnv where
  resolve : String → List String
  realpath : List String → Option (List String)

/-- Security configuration consumed by validateFilePath: the allow-list and
deny-list roots (raw strings, resolved through the environment exactly as the
source resolves each configured path). -/
structure SecurityConfig where
  allowedPaths : List String
  deniedPaths : List String

/-- Outcome of validateFilePath.  The source throws errors with distinct
messages; each throw site is one constructor, and allowed is the normal
return. -/
inductive AccessDecision where
  | allowed : AccessDecision
  | deniedHiddenOriginal : AccessDecision
  | deniedHiddenResolved : AccessDecision
  | deniedAncestor (root : String) : AccessDecision
  | outsideAllowlist : AccessDecision
deriving DecidableEq

/-- Returns true when the decision is the denied-ancestor rejection. -/
def AccessDecision.isDeniedAncestor : AccessDecision → Bool
  | .deniedAncestor _ => true
  | _ => false

/-- pathContainsDotfile from file-security.ts: true when any component starts
with a dot, excluding the bare current and parent markers. -/
def pathContainsDotfile (components : List String) : Bool :=
  components.any fun component =>
    strStartsWith "." component && component != "." && component != ".."

/-- The absolutePath computation of validateFilePath: realpathSync wrapped in
try/catch, falling back to the unresolved absolute path on failure. -/
def resolvedRealPath (env : FsEnv) (originalAbsolutePath : List String) : List String :=
  match env.realpath originalAbsolutePath with
  | some p => p
  | none => originalAbsolutePath

/-- Models absolutePath.startsWith(resolvedRoot + sep) || absolutePath ===
resolvedRoot on component lists: the root components are a (possibly equal)
prefix of the path components. -/
def isSubpathOf (p root : List String) : Bool := root.isPrefixOf p

/-- validateFilePath from src/file-security.ts: dotfile check on the original
absolute path, dotfile check on the symlink-resolved path when it differs,
then the deny-list scan, then the allow-list scan. -/
def validateFilePath (env : FsEnv) (cfg : SecurityConfig) (filePath : String) : AccessDecision :=
  let originalAbsolutePath := env.resolve filePath
  let absolutePath := resolvedRealPath env originalAbsolutePath
  if pathContainsDotfile originalAbsolutePath then .deniedHiddenOriginal
  else if pathContainsDotfile absolutePath && absolutePath != originalAbsolutePath then
    .deniedHiddenResolved
  else
    match cfg.deniedPaths.find? (fun deniedPath => isSubpathOf absolutePath (env.resolve deniedPath)) with
    | some deniedPath => .deniedAncestor deniedPath
    | none =>
      if cfg.allowedPaths.any (fun allowedPath => isSubpathOf absolutePath (env.resolve allowedPath)) then
        .allowed
      else .outsideAllowlist

/-- Concrete environment for witnesses: a fixed resolution table in which
the interesting path is a dotfile under an allowed root. -/
def fsEnvW : FsEnv where
  resolve := fun s =>
    if s = "/home/u" then [ "", "home", "u"]
    else if s = "/etc" then [ "", "etc"]
    else if s = "/etc/passwd" then [ "", "etc", "passwd"]
    else [ "", "home", "u", ".cfg"]
  realpath := fun p => some p

/-- Witness security configuration: the dotfile path sits under an allowed
root, and /etc is simultaneously allowed and denied. -/
def secCfgW : SecurityConfig where
  allowedPaths := [ "/home/u", "/etc"]
  deniedPaths := [ "/etc"]

/-! ## print_file tool handler (src/tools.ts)

The handler checks that the file exists, validates the copy count against
the configured maximum, builds the lpr argument vector, and invokes lpr.
Filesystem lookups and the lpr invocation are oracles in the environment;
each lpr invocation is recorded as a trace event. -/

/-- Configuration consumed by the print_file handler (src/config.ts of the
stdio/streamable-http variant). -/
structure LanConfig where
  cupsServer : String
  cupsPort : Nat
  defaultPrinter : String
  maxCopies : Nat

/-- Environment for one print_file invocation: the result of the
fileExists check and the outcome of the lpr subprocess. -/
structure PrintFileEnv where
  fileExistsResult : Bool
  lprResult : Except String Unit

/-- Input schema of the print_file tool. -/
structure PrintFileRequest where
  file_path : String
  printer : Option String
  copies : Nat
  options : Option String

/-- Result of the print_file handler: one constructor per return site. -/
inductive PrintFileResult where
  | notFound (path : String) : PrintFileResult
  | tooManyCopies (copies maxCopies : Nat) : PrintFileResult
  | sent (printerDisplay : String) (copies : Nat) : PrintFileResult
  | printFailed (message : String) : PrintFileResult
deriving DecidableEq

/-- External-process events of the print_file handler. -/
inductive LanEv where
  | lpr (args : List String) : LanEv
deriving DecidableEq

/-- Whitespace test for a handful of common whitespace characters, used to
model the regular-expression split of the options string. -/
def isWsChar (c : Char) : Bool :=
  c.toNat = 32 || c.toNat = 9 || c.toNat = 10 || c.toNat = 13

/-- Splits on runs of whitespace, used to model options.split over a
whitespace regular expression for ordinary option strings. -/
def splitWsChars : List Char → List Char → List String
  | [], acc => if acc.isEmpty then [] else [String.mk acc.reverse]
  | c :: cs, acc =>
    if isWsChar c then
      if acc.isEmpty then splitWsChars cs []
      else String.mk acc.reverse :: splitWsChars cs []
    else splitWsChars cs (c :: acc)

/-- String form of splitWsChars. -/
def splitWs (s : String) : List String := splitWsChars s.data []

/-- getCupsServerArgs from src/utils.ts: server flag for lpstat/lpr, empty
when no CUPS server is configured, with the port appended when it is not the
default 631. -/
def getCupsServerArgs (cfg : LanConfig) : List String :=
  if cfg.cupsServer = "" then []
  else if cfg.cupsPort ≠ 631 then [ "-h", cfg.cupsServer ++ ":" ++ toString cfg.cupsPort]
  else [ "-h", cfg.cupsServer]

/-- The print_file handler from src/tools.ts: existence check, copy-count
validation, lpr argument assembly, lpr invocation.  Note that it performs no
path-policy validation. -/
def printFile (cfg : LanConfig) (env : PrintFileEnv) (req : PrintFileRequest) :
    PrintFileResult × List LanEv :=
  if !env.fileExistsResult then (.notFound req.file_path, [])
  else if 0 < cfg.maxCopies ∧ cfg.maxCopies < req.copies then
    (.tooManyCopies req.copies cfg.maxCopies, [])
  else
    let serverArgs := getCupsServerArgs cfg
    let targetPrinter := req.printer.getD cfg.defaultPrinter
    let args := serverArgs
      ++ (if targetPrinter ≠ "" then [ "-P", targetPrinter] else [])
      ++ (if 1 < req.copies then [ "-#", toString req.copies] else [])
      ++ (match req.options with
          | some o => ((splitWs o).map (fun opt => [ "-o", opt])).flatten
          | none => [])
      ++ [req.file_path]
    match env.lprResult with
    | .ok _ => (.sent (if targetPrinter ≠ "" then targetPrinter else "default printer") req.copies, [.lpr args])
    | .error m => (.printFailed m, [.lpr args])

/-- Default-like configuration for the print_file fixtures: no remote CUPS
server, no default printer, maximum ten copies. -/
def lanCfgW : LanConfig where
  cupsServer := ""
  cupsPort := 631
  defaultPrinter := ""
  maxCopies := 10

/-- Environment in which the requested file exists and lpr succeeds. -/
def printEnvW : PrintFileEnv where
  fileExistsResult := true
  lprResult := .ok ()

/-- A print_file request for a dotfile path that the Access Policy Engine
would reject. -/
def printReqDotfile : PrintFileRequest where
  file_path := "/home/u/.cfg"
  printer := none
  copies := 1
  options := none

/-! ## Upload-and-print pipeline (src/tools/upload-print.ts and
src/file-security.ts)

The upload_and_print handler validates the declared extension and the
estimated content size, materializes the content in a fresh temporary
directory, conditionally renders it (prepareUploadedFileForPrinting),
applies the page-count confirmation gate, dispatches the print job, and
deletes every temporary artifact on every exit path.  Filesystem writes,
deletions, page-count inspection and job submission are recorded as trace
events; the renderers, the PDF page counter, the duplex detection and the
CUPS submission are oracles in the environment. -/

/-- Configuration consumed by the upload pipeline: the upload limits, the
confirmation threshold, and the rendering toggles.  The markdown-extension
set mirrors the MARKDOWN_EXTENSIONS constant the pipeline's config module
exports. -/
structure UploadConfig where
  blockedExtensions : List String
  maxUploadSize : Nat
  confirmIfOverPages : Nat
  autoRenderMarkdown : Bool
  fallbackOnRenderError : Bool
  markdownExtensions : List String

/-- Content encoding declared by the caller. -/
inductive Encoding where
  | base64 : Encoding
  | utf8 : Encoding
deriving DecidableEq

/-- Errors thrown inside the upload_and_print try block, one constructor per
throw origin. -/
inductive UploadError where
  | blockedExtension (ext : String) : UploadError
  | sizeExceeded (size max : Nat) : UploadError
  | renderFailed (message : String) : UploadError
  | printFailed (message : String) : UploadError
deriving DecidableEq

/-- True for the two validation errors detected before any byte is written. -/
def UploadError.isValidation : UploadError → Bool
  | .blockedExtension _ => true
  | .sizeExceeded _ _ => true
  | _ => false

/-- Oracles for the external rendering collaborators used by
prepareUploadedFileForPrinting: the outcome of renderMarkdownToPdf, the
shouldRenderCode decision, and the outcome of renderCodeToPdf. -/
structure RenderEnv where
  markdownRender : Except String String
  shouldRenderCodeResult : Bool
  codeRender : Except String String

/-- UploadRenderOptions from src/file-security.ts. -/
structure UploadRenderOptions where
  filePath : String
  lineNumbers : Option Bool
  colorScheme : Option String
  fontSize : Option String
  lineSpacing : Option String
  forceMarkdownRender : Option Bool
  forceCodeRender : Option Bool

/-- UploadRenderResult from src/file-security.ts. -/
structure UploadRenderResult where
  actualFilePath : String
  renderedPdf : Option String
  renderType : String
deriving DecidableEq

/-- shouldRenderMarkdown from src/file-security.ts: automatic markdown
rendering is enabled and the lowercase extension is a markdown extension. -/
def shouldRenderMarkdown (cfg : UploadConfig) (filePath : String) : Bool :=
  if !cfg.autoRenderMarkdown then false
  else cfg.markdownExtensions.contains (lowerStr (sliceFrom1 (extname filePath)))

/-- The markdown branch condition of prepareUploadedFileForPrinting: an
explicit override is honored (forcing on only when the lowercased path ends
in a markdown extension); otherwise automatic detection applies. -/
def markdownRenderSelected (cfg : UploadConfig) (opts : UploadRenderOptions) : Bool :=
  match opts.forceMarkdownRender with
  | some f =>
    f && cfg.markdownExtensions.any (fun ext => strEndsWith (lowerStr opts.filePath) ("." ++ ext))
  | none => shouldRenderMarkdown cfg opts.filePath

/-- The code branch condition of prepareUploadedFileForPrinting: an explicit
override is honored; otherwise the shouldRenderCode collaborator decides. -/
def codeRenderSelected (renv : RenderEnv) (opts : UploadRenderOptions) : Bool :=
  match opts.forceCodeRender with
  | some f => f
  | none => renv.shouldRenderCodeResult

/-- prepareUploadedFileForPrinting from src/file-security.ts: markdown
rendering takes precedence over code rendering; at most one renderer runs;
on renderer failure the original file is used when fallback is enabled and
the error propagates when it is disabled.  No path validation is performed
here. -/
def prepareUploadedFileForPrinting (cfg : UploadConfig) (renv : RenderEnv)
    (opts : UploadRenderOptions) : Except String UploadRenderResult :=
  if markdownRenderSelected cfg opts then
    match renv.markdownRender with
    | .ok pdf => .ok { actualFilePath := pdf, renderedPdf := some pdf, renderType := "markdown → PDF" }
    | .error err =>
      if cfg.fallbackOnRenderError then
        .ok { actualFilePath := opts.filePath, renderedPdf := none, renderType := "" }
      else .error err
  else if codeRenderSelected renv opts then
    match renv.codeRender with
    | .ok pdf =>
      .ok { actualFilePath := pdf, renderedPdf := some pdf, renderType := "code → PDF (syntax highlighted)" }
    | .error err =>
      if cfg.fallbackOnRenderError then
        .ok { actualFilePath := opts.filePath, renderedPdf := none, renderType := "" }
      else .error err
  else .ok { actualFilePath := opts.filePath, renderedPdf := none, renderType := "" }

/-- The byte-size estimate of validateUploadSize: the ceiling of three
quarters of the encoded length for base64 content, the UTF-8 byte length for
text content. -/
def uploadByteSize (content : String) : Encoding → Nat
  | .base64 => (content.length * 3 + 3) / 4
  | .utf8 => utf8Len content

/-- validateUploadExtension from the upload tool: reject when the lowercase
extension of the declared filename is in the blocked set. -/
def validateUploadExtension (cfg : UploadConfig) (filename : String) : Except UploadError Unit :=
  let ext := lowerStr (sliceFrom1 (extname filename))
  if cfg.blockedExtensions.contains ext then .error (.blockedExtension ext) else .ok ()

/-- validateUploadSize from the upload tool: reject when the estimated
decoded size exceeds the configured maximum. -/
def validateUploadSize (cfg : UploadConfig) (content : String) (encoding : Encoding) :
    Except UploadError Unit :=
  let byteSize := uploadByteSize content encoding
  if byteSize > cfg.maxUploadSize then .error (.sizeExceeded byteSize cfg.maxUploadSize)
  else .ok ()

/-- The extension given to the temporary upload file: the declared
filename's extension, or a generic text extension when there is none. -/
def uploadExt (filename : String) : String :=
  if extname filename = "" then ".txt" else extname filename

/-- Filesystem and collaborator events of one upload_and_print invocation,
in the order they are performed. -/
inductive FsEv where
  | mkdtemp (dir : String) : FsEv
  | write (file : String) : FsEv
  | inspect (file : String) : FsEv
  | submit (file : String) (printer : Option String) (copies : Nat) (options : Option String) : FsEv
  | unlink (file : String) : FsEv
  | rmdir (dir : String) : FsEv
deriving DecidableEq

/-- True for the events that materialize the uploaded artifact. -/
def FsEv.isMaterialization : FsEv → Bool
  | .mkdtemp _ => true
  | .write _ => true
  | _ => false

/-- Environment for one upload_and_print invocation: the process-unique
temporary directory mkdtempSync creates, the rendering oracles, the
getPdfPageCount outcome, the isDuplexEnabled result for the request's
option string, the executePrintJob outcome (the chosen printer name on
success), and the success of each deletion syscall. -/
structure UploadEnv where
  tmpName : String
  render : RenderEnv
  pageCount : Except String Nat
  isDuplex : Bool
  printJob : Except String String
  unlinkFails : String → Bool
  rmdirFails : String → Bool

/-- unlinkSync as an oracle-driven fallible operation. -/
def unlinkSyncOp (env : UploadEnv) (f : String) : Except String Unit :=
  if env.unlinkFails f then .error "unlink failed" else .ok ()

/-- rmdirSync as an oracle-driven fallible operation. -/
def rmdirSyncOp (env : UploadEnv) (d : String) : Except String Unit :=
  if env.rmdirFails d then .error "rmdir failed" else .ok ()

/-- saveUploadedFile from the upload tool: creates the fresh temporary
directory and writes the single file upload plus the original extension
inside it, decoding per the declared encoding.  Returns the directory and
file paths together with the materialization events. -/
def saveUploadedFile (env : UploadEnv) (filename : String) (content : String)
    (encoding : Encoding) : (String × String) × List FsEv :=
  let ext := uploadExt filename
  let tmpDir := env.tmpName
  let tmpFile := tmpDir ++ "/upload" ++ ext
  let _ := content
  let _ := encoding
  ((tmpDir, tmpFile), [FsEv.mkdtemp tmpDir, FsEv.write tmpFile])

/-- cleanupUpload from the upload tool: unlink the file, then remove its
directory, each syscall wrapped in its own try/catch whose failure is
ignored, so the deletion outcomes never influence anything downstream. -/
def cleanupUpload (env : UploadEnv) (tmpDir tmpFile : String) : List FsEv :=
  let _ := unlinkSyncOp env tmpFile
  let _ := rmdirSyncOp env tmpDir
  [FsEv.unlink tmpFile, FsEv.rmdir tmpDir]

/-- Modelled from the spec: cleanupRenderedPdf lives in src/utils.ts, which
is absent from the sources; sections 4.4 and 4.5 of the design require the
rendered artifact, when one exists, to be deleted alongside the uploaded
artifact, with deletion errors swallowed. -/
def cleanupRenderedPdf (env : UploadEnv) (renderedPdf : Option String) : List FsEv :=
  match renderedPdf with
  | none => []
  | some p =>
    let _ := unlinkSyncOp env p
    [FsEv.unlink p]

/-- Modelled from the spec: calculatePhysicalSheets lives in src/utils.ts,
absent from the sources; section 3 defines the physical sheet count as the
page count, or its half rounded up when duplex printing is on. -/
def calculatePhysicalSheets (pages : Nat) (duplex : Bool) : Nat :=
  if duplex then (pages + 1) / 2 else pages

/-- Modelled from the spec: shouldTriggerConfirmation lives in src/utils.ts,
absent from the sources; section 4.4 requires AwaitingConfirmation exactly
when the sheet count strictly exceeds the configured threshold. -/
def shouldTriggerConfirmation (cfg : UploadConfig) (sheets : Nat) : Bool :=
  cfg.confirmIfOverPages < sheets

/-- Input schema of the upload_and_print tool (rendering pass-through
options included). -/
structure UploadRequest where
  filename : String
  content : String
  encoding : Encoding
  printer : Option String
  copies : Nat
  options : Option String
  skipConfirmation : Bool
  lineNumbers : Option Bool
  colorScheme : Option String
  fontSize : Option String
  lineSpacing : Option String
  forceMarkdownRender : Option Bool
  forceCodeRender : Option Bool

/-- The UploadRenderOptions record the handler passes to
prepareUploadedFileForPrinting for the saved temporary file. -/
def mkRenderOptions (req : UploadRequest) (tmpFile : String) : UploadRenderOptions where
  filePath := tmpFile
  lineNumbers := req.lineNumbers
  colorScheme := req.colorScheme
  fontSize := req.fontSize
  lineSpacing := req.lineSpacing
  forceMarkdownRender := req.forceMarkdownRender
  forceCodeRender := req.forceCodeRender

/-- Result of the upload_and_print handler: one constructor per return
site (the success message, the confirmation notice with its page count,
sheet count and threshold, and the caught-error message). -/
inductive UploadOutcome where
  | printed (filename printerName renderType : String) (copies : Nat) : UploadOutcome
  | awaitingConfirmation (filename : String) (pages sheets threshold : Nat) : UploadOutcome
  | failed (filename : String) (error : UploadError) : UploadOutcome
deriving DecidableEq

/-- True when the outcome is a failure carrying one of the two
before-any-write validation errors. -/
def UploadOutcome.isValidationFailure : UploadOutcome → Bool
  | .failed _ e => e.isValidation
  | _ => false

/-- The page-count confirmation gate of the upload_and_print handler: runs
only when confirmation is not skipped and the threshold is positive;
getPdfPageCount sits in a try whose catch falls through to printing, so an
inspection failure proceeds.  Returns the page and sheet counts when the
gate halts the pipeline, and the inspection events. -/
def confirmationGate (cfg : UploadConfig) (env : UploadEnv) (req : UploadRequest)
    (actualFilePath : String) : Option (Nat × Nat) × List FsEv :=
  if !req.skipConfirmation && 0 < cfg.confirmIfOverPages then
    match env.pageCount with
    | .ok pdfPages =>
      let isDuplex := env.isDuplex
      let physicalSheets := calculatePhysicalSheets pdfPages isDuplex
      if shouldTriggerConfirmation cfg physicalSheets then
        (some (pdfPages, physicalSheets), [FsEv.inspect actualFilePath])
      else (none, [FsEv.inspect actualFilePath])
    | .error _ => (none, [FsEv.inspect actualFilePath])
  else (none, [])

/-- The upload_and_print handler: validation, materialization, rendering,
confirmation gate, dispatch, and cleanup of the rendered and uploaded
artifacts at every return site, with every error caught at the handler
boundary and cleaned up there. -/
def uploadAndPrint (cfg : UploadConfig) (env : UploadEnv) (req : UploadRequest) :
    UploadOutcome × List FsEv :=
  match validateUploadExtension cfg req.filename with
  | .error e => (.failed req.filename e, [])
  | .ok _ =>
    match validateUploadSize cfg req.content req.encoding with
    | .error e => (.failed req.filename e, [])
    | .ok _ =>
      let saved := saveUploadedFile env req.filename req.content req.encoding
      let tmpDir := saved.1.1
      let tmpFile := saved.1.2
      match prepareUploadedFileForPrinting cfg env.render (mkRenderOptions req tmpFile) with
      | .error e =>
        (.failed req.filename (.renderFailed e), saved.2 ++ cleanupUpload env tmpDir tmpFile)
      | .ok r =>
        let gate := confirmationGate cfg env req r.actualFilePath
        match gate.1 with
        | some (pdfPages, physicalSheets) =>
          (.awaitingConfirmation req.filename pdfPages physicalSheets cfg.confirmIfOverPages,
            (saved.2 ++ gate.2 ++ cleanupRenderedPdf env r.renderedPdf)
              ++ cleanupUpload env tmpDir tmpFile)
        | none =>
          match env.printJob with
          | .ok printerName =>
            (.printed req.filename printerName r.renderType req.copies,
              (saved.2 ++ gate.2
                  ++ [FsEv.submit r.actualFilePath req.printer req.copies req.options]
                  ++ cleanupRenderedPdf env r.renderedPdf)
                ++ cleanupUpload env tmpDir tmpFile)
          | .error m =>
            (.failed req.filename (.printFailed m),
              (saved.2 ++ gate.2
                  ++ [FsEv.submit r.actualFilePath req.printer req.copies req.options]
                  ++ cleanupRenderedPdf env r.renderedPdf)
                ++ cleanupUpload env tmpDir tmpFile)

/-- The last two events of a trace, for stating that a trace ends with the
upload-cleanup pair. -/
def trailingEvents (tr : List FsEv) : List FsEv := tr.drop (tr.length - 2)

/-- Fixture configuration for the upload pipeline witnesses. -/
def upCfgW : UploadConfig where
  blockedExtensions := [ "sh"]
  maxUploadSize := 100
  confirmIfOverPages := 10
  autoRenderMarkdown := false
  fallbackOnRenderError := true
  markdownExtensions := [ "md", "markdown"]

/-- Fixture environment for the upload pipeline witnesses: no rendering, a
24-page document, duplex on, a successful print job, reliable deletions. -/
def upEnvW : UploadEnv where
  tmpName := "/tmp/mcp-upload-w"
  render := { markdownRender := .ok "/tmp/r.pdf", shouldRenderCodeResult := false, codeRender := .ok "/tmp/c.pdf" }
  pageCount := .ok 24
  isDuplex := true
  printJob := .ok "HP_LaserJet"
  unlinkFails := fun _ => false
  rmdirFails := fun _ => false

/-- Fixture request for the upload pipeline witnesses. -/
def upReqW : UploadRequest where
  filename := "doc.pdf"
  content := "hello"
  encoding := .utf8
  printer := none
  copies := 1
  options := some "sides=two-sided-long-edge"
  skipConfirmation := false
  lineNumbers := none
  colorScheme := none
  fontSize := none
  lineSpacing := none
  forceMarkdownRender := none
  forceCodeRender := none

/-- Fixture request with a blocked extension for the C5 witness. -/
def upReqBlocked : UploadRequest where
  filename := "run.sh"
  content := "x"
  encoding := .utf8
  printer := none
  copies := 1
  options := none
  skipConfirmation := false
  lineNumbers := none
  colorScheme := none
  fontSize := none
  lineSpacing := none
  forceMarkdownRender := none
  forceCodeRender := none

/-- Fixture configuration for the C7 witness: automatic markdown rendering
enabled, fallback disabled. -/
def upCfgNoFallback : UploadConfig where
  blockedExtensions := [ "sh"]
  maxUploadSize := 100
  confirmIfOverPages := 10
  autoRenderMarkdown := true
  fallbackOnRenderError := false
  markdownExtensions := [ "md", "markdown"]

/-- Fixture rendering environment for the C7 witness: the markdown renderer
fails. -/
def renvFailW : RenderEnv where
  markdownRender := .error "chrome missing"
  shouldRenderCodeResult := false
  codeRender := .ok "/tmp/c.pdf"

/-- Fixture rendering options for the C7 witness: a markdown upload. -/
def optsMdW : UploadRenderOptions where
  filePath := "/tmp/up/upload.md"
  lineNumbers := none
  colorScheme := none
  fontSize := none
  lineSpacing := none
  forceMarkdownRender := none
  forceCodeRender := none

/-! ## Streaming transport session registry (src/http-transport.ts)

The activeTransports map is modelled as an association list from session
identifiers to transport handles (handles are abstract identifiers).  The
POST /message handler reads the session header — absent or empty is falsy in
the source and rejected as missing — looks the identifier up, and forwards
the message to the found transport, converting a thrown handler error into
the internal-error response. -/

/-- Response of the POST /message endpoint, one constructor per status. -/
inductive MsgResponse where
  | missingHeader : MsgResponse
  | sessionNotFound : MsgResponse
  | internalError : MsgResponse
  | handled : MsgResponse
deriving DecidableEq

/-- First-match lookup in the session registry, the Map.get of the source. -/
def lookupSession : List (String × Nat) → String → Option Nat
  | [], _ => none
  | (k, v) :: rest, sid => if k = sid then some v else lookupSession rest sid

/-- Map.set of the source: replace the entry when the identifier is present,
append it otherwise. -/
def registerSession (reg : List (String × Nat)) (sid : String) (handle : Nat) :
    List (String × Nat) :=
  if reg.any (fun p => p.1 = sid) then
    reg.map (fun p => if p.1 = sid then (sid, handle) else p)
  else reg ++ [(sid, handle)]

/-- Map.delete of the source, run by the connection-close listener. -/
def unregisterSession (reg : List (String × Nat)) (sid : String) : List (String × Nat) :=
  reg.filter (fun p => p.1 ≠ sid)

/-- The POST /message handler: returns the response together with the handle
of the transport the message was forwarded to, if any. -/
def handleMessage (reg : List (String × Nat)) (sessionId : Option String)
    (handleOutcome : Except String Unit) : MsgResponse × Option Nat :=
  match sessionId with
  | none => (.missingHeader, none)
  | some sid =>
    if sid = "" then (.missingHeader, none)
    else
      match lookupSession reg sid with
      | none => (.sessionNotFound, none)
      | some transport =>
        match handleOutcome with
        | .ok _ => (.handled, some transport)
        | .error _ => (.internalError, some transport)

/-! ## Decoded-size model for the upload size estimate (claim C10)

Model of node Buffer.from(content, base64): characters outside the base64
alphabet are skipped; every complete group of four alphabet characters
decodes to three bytes, a trailing group of two or three decodes to one or
two bytes, and a lone trailing character contributes nothing. -/

/-- Membership in the base64 alphabet. -/
def isBase64Char (c : Char) : Bool :=
  decide ((65 ≤ c.toNat ∧ c.toNat ≤ 90) ∨ (97 ≤ c.toNat ∧ c.toNat ≤ 122)
    ∨ (48 ≤ c.toNat ∧ c.toNat ≤ 57) ∨ c = '+' ∨ c = '/')

/-- Bytes contributed by a trailing partial base64 group of the given
size. -/
def base64PadLength (r : Nat) : Nat :=
  if r = 2 then 1 else if r = 3 then 2 else 0

/-- Number of bytes Buffer.from(content, base64) produces under the decoder
model above. -/
def base64DecodedLength (content : String) : Nat :=
  let m := (content.data.filter isBase64Char).length
  3 * (m / 4) + base64PadLength (m % 4)

/-- Number of bytes saveUploadedFile writes for the given content and
declared encoding: the decoded base64 byte count, or the UTF-8 byte count. -/
def writtenByteLength (content : String) : Encoding → Nat
  | .base64 => base64DecodedLength content
  | .utf8 => utf8Len content

/-! ## Theorems -/

/-! ## Theorems for claims C2 and C3 -/

/-- Claim C2: whenever the resolved absolute form or the symlink-resolved
real form of a path contains a hidden-name component, validateFilePath
rejects with one of the two hidden-component reasons, for every allow/deny
configuration: no configuration overrides the dotfile check. -/
theorem validateFilePath_hidden_component_denied
    (env : FsEnv) (cfg : SecurityConfig) (filePath : String)
    (h : pathContainsDotfile (env.resolve filePath) = true
       ∨ pathContainsDotfile (resolvedRealPath env (env.resolve filePath)) = true) :
    validateFilePath env cfg filePath = .deniedHiddenOriginal
    ∨ validateFilePath env cfg filePath = .deniedHiddenResolved := by
  by_cases h1 : pathContainsDotfile (env.resolve filePath) = true
  · left
    simp [validateFilePath, h1]
  · right
    have h1' : pathContainsDotfile (env.resolve filePath) = false :=
      Bool.eq_false_iff.mpr h1
    have h2 : pathContainsDotfile (resolvedRealPath env (env.resolve filePath)) = true := by
      rcases h with h | h
      · exact absurd h h1
      · exact h
    have hne : resolvedRealPath env (env.resolve filePath) ≠ env.resolve filePath := by
      intro he
      rw [he, h1'] at h2
      exact Bool.noConfusion h2
    simp [validateFilePath, h1', h2, hne]

/-- Witness for C2: the dotfile path /home/u/.cfg is under the allowed root
/home/u yet is rejected with a hidden-component reason. -/
theorem validateFilePath_hidden_component_denied_witness :
    validateFilePath fsEnvW secCfgW "/home/u/.cfg" = .deniedHiddenOriginal
    ∨ validateFilePath fsEnvW secCfgW "/home/u/.cfg" = .deniedHiddenResolved :=
  validateFilePath_hidden_component_denied fsEnvW secCfgW "/home/u/.cfg" (Or.inl (by decide))

/-- Claim C3: for a path with no hidden component whose real form lies under
a configured denied root, validateFilePath rejects with the denied-ancestor
reason, whatever the allow-list contains: the deny-list scan precedes and
overrides the allow-list scan.  The rejection names a configured denied root
that the real form lies under. -/
theorem validateFilePath_denied_root_precedence
    (env : FsEnv) (cfg : SecurityConfig) (filePath : String) (deniedDir : String)
    (h1 : pathContainsDotfile (env.resolve filePath) = false)
    (h2 : pathContainsDotfile (resolvedRealPath env (env.resolve filePath)) = false)
    (hmem : deniedDir ∈ cfg.deniedPaths)
    (hunder : isSubpathOf (resolvedRealPath env (env.resolve filePath)) (env.resolve deniedDir) = true) :
    (validateFilePath env cfg filePath).isDeniedAncestor = true
    ∧ ∀ a, validateFilePath env cfg filePath = .deniedAncestor a →
        a ∈ cfg.deniedPaths
        ∧ isSubpathOf (resolvedRealPath env (env.resolve filePath)) (env.resolve a) = true := by
  have hs : (cfg.deniedPaths.find?
      (fun deniedPath => isSubpathOf (resolvedRealPath env (env.resolve filePath)) (env.resolve deniedPath))).isSome :=
    List.find?_isSome.mpr ⟨deniedDir, hmem, hunder⟩
  obtain ⟨d, hd⟩ := Option.isSome_iff_exists.mp hs
  have hres : validateFilePath env cfg filePath = .deniedAncestor d := by
    simp [validateFilePath, h1, h2, hd]
  constructor
  · rw [hres]; rfl
  · intro a ha
    rw [hres] at ha
    cases ha
    exact ⟨List.mem_of_find?_eq_some hd, by simpa using List.find?_some hd⟩

/-- Witness for C3: /etc/passwd is under /etc, which is both allowed and
denied; the decision is the denied-ancestor rejection. -/
theorem validateFilePath_denied_root_precedence_witness :
    (validateFilePath fsEnvW secCfgW "/etc/passwd").isDeniedAncestor = true :=
  (validateFilePath_denied_root_precedence fsEnvW secCfgW "/etc/passwd" "/etc"
    (by decide) (by decide) (by decide) (by decide)).1

/-! ## Theorems for claims C1 and C8 -/

/-- Claim C1 (code bug): the print_file handler submits the file to lpr
without ever running validateFilePath.  Concretely, the dotfile path
/home/u/.cfg — which validateFilePath rejects with the hidden-component
reason under every configuration, here the witness configuration — is handed
to lpr and reported as sent. -/
theorem print_file_dispatches_unvalidated_dotfile_path :
    printFile lanCfgW printEnvW printReqDotfile
      = (.sent "default printer" 1, [.lpr [ "/home/u/.cfg"]])
    ∧ validateFilePath fsEnvW secCfgW "/home/u/.cfg" = .deniedHiddenOriginal := by
  constructor
  · rfl
  · decide

/-- Counterexample for claim C8 as stated: when the requested file does not
exist, a request with copies over the maximum fails with the file-not-found
message, which does not report the configured maximum; the existence check
runs before the copy-count validation. -/
theorem print_file_copies_message_counterexample :
    printFile lanCfgW { fileExistsResult := false, lprResult := .ok () }
        { file_path := "/home/u/d.pdf", printer := none, copies := 11, options := none }
      = (.notFound "/home/u/d.pdf", [])
    ∧ (PrintFileResult.notFound "/home/u/d.pdf") ≠ (.tooManyCopies 11 10) := by
  constructor
  · rfl
  · decide

/-- Claim C8 (amended): for copies strictly over a non-zero configured
maximum, lpr is never invoked; and provided the file-existence precheck
passes, the failure reports the request's copy count and exactly the
configured maximum. -/
theorem print_file_copies_limit_amended
    (cfg : LanConfig) (env : PrintFileEnv) (req : PrintFileRequest)
    (hmax : 0 < cfg.maxCopies) (hover : cfg.maxCopies < req.copies) :
    (printFile cfg env req).2 = []
    ∧ (env.fileExistsResult = true →
        (printFile cfg env req).1 = .tooManyCopies req.copies cfg.maxCopies) := by
  cases hex : env.fileExistsResult with
  | false =>
    refine ⟨?_, fun hc => Bool.noConfusion hc⟩
    simp [printFile, hex]
  | true =>
    constructor
    · simp [printFile, hex, hmax, hover]
    · intro _
      simp [printFile, hex, hmax, hover]

/-- Witness for C8 (amended claim): eleven copies against a maximum of ten,
file present: no lpr event and the too-many-copies failure carrying the
configured maximum. -/
theorem print_file_copies_limit_amended_witness :
    (printFile lanCfgW printEnvW
        { file_path := "/home/u/d.pdf", printer := none, copies := 11, options := none }).1
      = .tooManyCopies 11 10 :=
  (print_file_copies_limit_amended lanCfgW printEnvW
    { file_path := "/home/u/d.pdf", printer := none, copies := 11, options := none }
    (by decide) (by decide)).2 rfl

/-- Helper: dropping all but the last two elements of a list that ends in a
two-element block returns that block. -/
theorem trailingEvents_append_pair (pre : List FsEv) (a b : FsEv) :
    trailingEvents (pre ++ [a, b]) = [a, b] := by
  unfold trailingEvents
  rw [List.length_append]
  simp only [List.length_cons, List.length_nil]
  rw [Nat.add_sub_cancel]
  exact List.drop_left pre [a, b]

/-- Helper: after both upload validations succeed, the trace of
upload_and_print starts with the materialization events and ends with the
upload-cleanup pair, on every branch. -/
theorem uploadAndPrint_trace_shape (cfg : UploadConfig) (env : UploadEnv) (req : UploadRequest)
    (hext : validateUploadExtension cfg req.filename = .ok ())
    (hsize : validateUploadSize cfg req.content req.encoding = .ok ()) :
    ∃ mid, (uploadAndPrint cfg env req).2
      = FsEv.mkdtemp env.tmpName
        :: FsEv.write (env.tmpName ++ "/upload" ++ uploadExt req.filename)
        :: (mid ++ [FsEv.unlink (env.tmpName ++ "/upload" ++ uploadExt req.filename),
                    FsEv.rmdir env.tmpName]) := by
  simp only [uploadAndPrint, hext, hsize]
  cases hprep : prepareUploadedFileForPrinting cfg env.render
      (mkRenderOptions req ((saveUploadedFile env req.filename req.content req.encoding).1.2)) with
  | error e =>
    exact ⟨[], by simp [saveUploadedFile, cleanupUpload]⟩
  | ok r =>
    cases hgate : (confirmationGate cfg env req r.actualFilePath).1 with
    | some ps =>
      exact ⟨(confirmationGate cfg env req r.actualFilePath).2 ++ cleanupRenderedPdf env r.renderedPdf,
        by cases ps with
        | mk p s => simp [saveUploadedFile, cleanupUpload, hgate]⟩
    | none =>
      cases hpj : env.printJob with
      | ok printerName =>
        exact ⟨(confirmationGate cfg env req r.actualFilePath).2
            ++ [FsEv.submit r.actualFilePath req.printer req.copies req.options]
            ++ cleanupRenderedPdf env r.renderedPdf,
          by simp [saveUploadedFile, cleanupUpload, hgate]⟩
      | error m =>
        exact ⟨(confirmationGate cfg env req r.actualFilePath).2
            ++ [FsEv.submit r.actualFilePath req.printer req.copies req.options]
            ++ cleanupRenderedPdf env r.renderedPdf,
          by simp [saveUploadedFile, cleanupUpload, hgate]⟩

/-- Claim C4: once the upload is materialized (both validations passed), on
every exit path — successful dispatch, the confirmation halt, and every
caught error — the trace ends with the deletion of the uploaded file
strictly before the removal of its owning temporary directory; any rendered
PDF produced for the invocation is also deleted; and the deletion-failure
oracles never influence the reported result, since both deletions swallow
their errors. -/
theorem upload_and_print_cleanup_every_exit
    (cfg : UploadConfig) (env : UploadEnv) (req : UploadRequest)
    (hext : validateUploadExtension cfg req.filename = .ok ())
    (hsize : validateUploadSize cfg req.content req.encoding = .ok ()) :
    trailingEvents (uploadAndPrint cfg env req).2
      = [FsEv.unlink (env.tmpName ++ "/upload" ++ uploadExt req.filename),
         FsEv.rmdir env.tmpName]
    ∧ (∀ r p, prepareUploadedFileForPrinting cfg env.render
          (mkRenderOptions req (env.tmpName ++ "/upload" ++ uploadExt req.filename)) = .ok r →
        r.renderedPdf = some p → FsEv.unlink p ∈ (uploadAndPrint cfg env req).2)
    ∧ (∀ uf rf, (uploadAndPrint cfg { env with unlinkFails := uf, rmdirFails := rf } req).1
        = (uploadAndPrint cfg env req).1) := by
  refine ⟨?_, ?_, fun uf rf => rfl⟩
  · obtain ⟨mid, hmid⟩ := uploadAndPrint_trace_shape cfg env req hext hsize
    rw [hmid]
    have : FsEv.mkdtemp env.tmpName
        :: FsEv.write (env.tmpName ++ "/upload" ++ uploadExt req.filename)
        :: (mid ++ [FsEv.unlink (env.tmpName ++ "/upload" ++ uploadExt req.filename),
                    FsEv.rmdir env.tmpName])
        = (FsEv.mkdtemp env.tmpName
            :: FsEv.write (env.tmpName ++ "/upload" ++ uploadExt req.filename) :: mid)
          ++ [FsEv.unlink (env.tmpName ++ "/upload" ++ uploadExt req.filename),
              FsEv.rmdir env.tmpName] := by simp
    rw [this]
    exact trailingEvents_append_pair _ _ _
  · intro r p hprep hp
    have hprep' : prepareUploadedFileForPrinting cfg env.render
        (mkRenderOptions req ((saveUploadedFile env req.filename req.content req.encoding).1.2))
        = Except.ok r := hprep
    simp only [uploadAndPrint, hext, hsize]
    cases hprep2 : prepareUploadedFileForPrinting cfg env.render
        (mkRenderOptions req ((saveUploadedFile env req.filename req.content req.encoding).1.2)) with
    | error e =>
      rw [hprep2] at hprep'
      exact Except.noConfusion hprep'
    | ok r0 =>
      rw [hprep2] at hprep'
      injection hprep' with hr
      subst hr
      cases hgate : (confirmationGate cfg env req r0.actualFilePath).1 with
      | some ps =>
        cases ps with
        | mk a b => simp [hgate, cleanupRenderedPdf, hp]
      | none =>
        cases hpj : env.printJob with
        | ok printerName => simp [hgate, cleanupRenderedPdf, hp]
        | error m => simp [hgate, cleanupRenderedPdf, hp]

/-- Witness for C4: on the fixture invocation the trace ends with the
deletion of /tmp/mcp-upload-w/upload.pdf followed by the removal of
/tmp/mcp-upload-w. -/
theorem upload_and_print_cleanup_every_exit_witness :
    trailingEvents (uploadAndPrint upCfgW upEnvW upReqW).2
      = [FsEv.unlink "/tmp/mcp-upload-w/upload.pdf", FsEv.rmdir "/tmp/mcp-upload-w"] :=
  (upload_and_print_cleanup_every_exit upCfgW upEnvW upReqW rfl rfl).1

/-- Claim C5: upload_and_print fails with a validation error while its trace
contains no materialization event (no temporary directory, no file) exactly
when the lowercase declared extension is blocked or the estimated decoded
size exceeds the configured maximum. -/
theorem upload_validation_failure_iff
    (cfg : UploadConfig) (env : UploadEnv) (req : UploadRequest) :
    ((uploadAndPrint cfg env req).1.isValidationFailure = true
      ∧ (uploadAndPrint cfg env req).2.filter FsEv.isMaterialization = [])
    ↔ (cfg.blockedExtensions.contains (lowerStr (sliceFrom1 (extname req.filename))) = true
       ∨ cfg.maxUploadSize < uploadByteSize req.content req.encoding) := by
  by_cases hb : cfg.blockedExtensions.contains (lowerStr (sliceFrom1 (extname req.filename))) = true
  · have hb' : lowerStr (sliceFrom1 (extname req.filename)) ∈ cfg.blockedExtensions := by
      simpa using hb
    have hres : uploadAndPrint cfg env req
        = (.failed req.filename (.blockedExtension (lowerStr (sliceFrom1 (extname req.filename)))), []) := by
      simp [uploadAndPrint, validateUploadExtension, hb']
    rw [hres]
    constructor
    · intro _
      exact Or.inl hb
    · intro _
      simp [UploadOutcome.isValidationFailure, UploadError.isValidation]
  · have hb' : lowerStr (sliceFrom1 (extname req.filename)) ∉ cfg.blockedExtensions := by
      simpa using hb
    have hext : validateUploadExtension cfg req.filename = .ok () := by
      simp [validateUploadExtension, hb']
    by_cases hs : cfg.maxUploadSize < uploadByteSize req.content req.encoding
    · have hres : uploadAndPrint cfg env req
          = (.failed req.filename
              (.sizeExceeded (uploadByteSize req.content req.encoding) cfg.maxUploadSize), []) := by
        simp [uploadAndPrint, hext, validateUploadSize, hs]
      rw [hres]
      simp [UploadOutcome.isValidationFailure, UploadError.isValidation, hs]
    · have hsize : validateUploadSize cfg req.content req.encoding = .ok () := by
        simp [validateUploadSize]
        omega
      obtain ⟨mid, hmid⟩ := uploadAndPrint_trace_shape cfg env req hext hsize
      constructor
      · intro hcontra
        rw [hmid] at hcontra
        simp [FsEv.isMaterialization] at hcontra
      · intro hcontra
        rcases hcontra with h | h
        · exact absurd h hb
        · exact absurd h hs

/-- Witness for C5: the blocked extension sh makes the fixture invocation a
validation failure with an empty materialization trace. -/
theorem upload_validation_failure_iff_witness :
    (uploadAndPrint upCfgW upEnvW upReqBlocked).1.isValidationFailure = true
    ∧ (uploadAndPrint upCfgW upEnvW upReqBlocked).2.filter FsEv.isMaterialization = [] :=
  (upload_validation_failure_iff upCfgW upEnvW upReqBlocked).mpr (Or.inl (by decide))

/-- Helper: the confirmation gate is inert when confirmation is skipped or
the threshold is zero. -/
theorem confirmationGate_off (cfg : UploadConfig) (env : UploadEnv) (req : UploadRequest)
    (a : String) (h : req.skipConfirmation = true ∨ cfg.confirmIfOverPages = 0) :
    confirmationGate cfg env req a = (none, []) := by
  rcases h with h | h <;> simp [confirmationGate, h]

/-- Helper: when the gate runs but page-count inspection fails, it inspects
and then proceeds. -/
theorem confirmationGate_on_error (cfg : UploadConfig) (env : UploadEnv) (req : UploadRequest)
    (a : String) (hskip : req.skipConfirmation = false) (hthr : 0 < cfg.confirmIfOverPages)
    (msg : String) (hpc : env.pageCount = .error msg) :
    confirmationGate cfg env req a = (none, [FsEv.inspect a]) := by
  simp [confirmationGate, hskip, hthr, hpc]

/-- Helper: when the gate runs and inspection succeeds, it halts exactly when
the duplex-aware sheet count strictly exceeds the threshold. -/
theorem confirmationGate_on_ok (cfg : UploadConfig) (env : UploadEnv) (req : UploadRequest)
    (a : String) (hskip : req.skipConfirmation = false) (hthr : 0 < cfg.confirmIfOverPages)
    (n : Nat) (hpc : env.pageCount = .ok n) :
    confirmationGate cfg env req a
      = (if cfg.confirmIfOverPages < calculatePhysicalSheets n env.isDuplex then
          (some (n, calculatePhysicalSheets n env.isDuplex), [FsEv.inspect a])
        else (none, [FsEv.inspect a])) := by
  simp [confirmationGate, shouldTriggerConfirmation, hskip, hthr, hpc]

/-- Claim C6: once the upload is materialized and prepared, the confirmation
gate of upload_and_print proceeds straight to dispatch without inspecting
the file when confirmation is skipped or the threshold is zero; proceeds to
dispatch when page-count inspection fails; and otherwise halts with the
confirmation notice — carrying the page count, the duplex-aware physical
sheet count and the configured threshold — exactly when that sheet count
strictly exceeds the threshold. -/
theorem upload_confirmation_gate_behavior
    (cfg : UploadConfig) (env : UploadEnv) (req : UploadRequest) (r : UploadRenderResult)
    (hext : validateUploadExtension cfg req.filename = .ok ())
    (hsize : validateUploadSize cfg req.content req.encoding = .ok ())
    (hprep : prepareUploadedFileForPrinting cfg env.render
        (mkRenderOptions req (env.tmpName ++ "/upload" ++ uploadExt req.filename)) = .ok r) :
    ((req.skipConfirmation = true ∨ cfg.confirmIfOverPages = 0) →
        (∀ f, FsEv.inspect f ∉ (uploadAndPrint cfg env req).2)
        ∧ FsEv.submit r.actualFilePath req.printer req.copies req.options
            ∈ (uploadAndPrint cfg env req).2)
    ∧ (req.skipConfirmation = false → 0 < cfg.confirmIfOverPages →
        ∀ msg, env.pageCount = .error msg →
          FsEv.submit r.actualFilePath req.printer req.copies req.options
            ∈ (uploadAndPrint cfg env req).2)
    ∧ (req.skipConfirmation = false → 0 < cfg.confirmIfOverPages →
        ∀ n, env.pageCount = .ok n →
          ((uploadAndPrint cfg env req).1
              = .awaitingConfirmation req.filename n (calculatePhysicalSheets n env.isDuplex)
                  cfg.confirmIfOverPages
            ↔ cfg.confirmIfOverPages < calculatePhysicalSheets n env.isDuplex)
          ∧ (calculatePhysicalSheets n env.isDuplex ≤ cfg.confirmIfOverPages →
              FsEv.submit r.actualFilePath req.printer req.copies req.options
                ∈ (uploadAndPrint cfg env req).2)) := by
  have hprep' : prepareUploadedFileForPrinting cfg env.render
      (mkRenderOptions req ((saveUploadedFile env req.filename req.content req.encoding).1.2))
      = Except.ok r := hprep
  refine ⟨?_, ?_, ?_⟩
  · intro hcond
    have hgate := confirmationGate_off cfg env req r.actualFilePath hcond
    constructor
    · intro f
      simp only [uploadAndPrint, hext, hsize, hprep', hgate]
      cases hpj : env.printJob <;> cases hrp : r.renderedPdf <;>
        simp [saveUploadedFile, cleanupUpload, cleanupRenderedPdf]
    · simp only [uploadAndPrint, hext, hsize, hprep', hgate]
      cases hpj : env.printJob <;> simp [saveUploadedFile, cleanupUpload]
  · intro hskip hthr msg hpc
    have hgate := confirmationGate_on_error cfg env req r.actualFilePath hskip hthr msg hpc
    simp only [uploadAndPrint, hext, hsize, hprep', hgate]
    cases hpj : env.printJob <;> simp [saveUploadedFile, cleanupUpload]
  · intro hskip hthr n hpc
    have hgate := confirmationGate_on_ok cfg env req r.actualFilePath hskip hthr n hpc
    by_cases htrig : cfg.confirmIfOverPages < calculatePhysicalSheets n env.isDuplex
    · rw [if_pos htrig] at hgate
      constructor
      · constructor
        · intro _
          exact htrig
        · intro _
          simp only [uploadAndPrint, hext, hsize, hprep', hgate]
      · intro hle
        exact absurd htrig (Nat.not_lt.mpr hle)
    · rw [if_neg htrig] at hgate
      constructor
      · constructor
        · intro heq
          simp only [uploadAndPrint, hext, hsize, hprep', hgate] at heq
          cases hpj : env.printJob <;> rw [hpj] at heq <;> simp at heq
        · intro h
          exact absurd h htrig
      · intro _
        simp only [uploadAndPrint, hext, hsize, hprep', hgate]
        cases hpj : env.printJob <;> simp [saveUploadedFile, cleanupUpload]

/-- Witness for C6: the fixture invocation (24 pages, duplex, threshold 10)
halts with the confirmation notice reporting 24 pages, 12 sheets and the
threshold 10, exactly the scenario of the design document. -/
theorem upload_confirmation_gate_behavior_witness :
    (uploadAndPrint upCfgW upEnvW upReqW).1
      = .awaitingConfirmation "doc.pdf" 24 12 10 :=
  (((upload_confirmation_gate_behavior upCfgW upEnvW upReqW
      { actualFilePath := "/tmp/mcp-upload-w/upload.pdf", renderedPdf := none, renderType := "" }
      rfl rfl rfl).2.2 rfl (by decide) 24 rfl).1).mpr (by decide)

/-- Claim C7: when the renderer chosen for the file fails, the pipeline
proceeds with the original unrendered file and reports no render kind if
fallback-on-render-error is enabled, and otherwise the error propagates out
of prepareUploadedFileForPrinting; a propagated render error makes
upload_and_print fail with that error and its trace contains no job
submission. -/
theorem render_failure_fallback_policy
    (cfg : UploadConfig) (renv : RenderEnv) (opts : UploadRenderOptions) (e : String)
    (hfail : (markdownRenderSelected cfg opts = true ∧ renv.markdownRender = .error e)
           ∨ (markdownRenderSelected cfg opts = false ∧ codeRenderSelected renv opts = true
              ∧ renv.codeRender = .error e)) :
    (cfg.fallbackOnRenderError = true →
        prepareUploadedFileForPrinting cfg renv opts
          = .ok { actualFilePath := opts.filePath, renderedPdf := none, renderType := "" })
    ∧ (cfg.fallbackOnRenderError = false →
        prepareUploadedFileForPrinting cfg renv opts = .error e)
    ∧ (∀ (env : UploadEnv) (req : UploadRequest) (e' : String),
        validateUploadExtension cfg req.filename = .ok () →
        validateUploadSize cfg req.content req.encoding = .ok () →
        prepareUploadedFileForPrinting cfg env.render
            (mkRenderOptions req (env.tmpName ++ "/upload" ++ uploadExt req.filename))
          = .error e' →
        (uploadAndPrint cfg env req).1 = .failed req.filename (.renderFailed e')
        ∧ ∀ f p c o, FsEv.submit f p c o ∉ (uploadAndPrint cfg env req).2) := by
  refine ⟨?_, ?_, ?_⟩
  · intro hfb
    rcases hfail with ⟨hmd, herr⟩ | ⟨hmd, hcode, herr⟩
    · simp [prepareUploadedFileForPrinting, hmd, herr, hfb]
    · simp [prepareUploadedFileForPrinting, hmd, hcode, herr, hfb]
  · intro hfb
    rcases hfail with ⟨hmd, herr⟩ | ⟨hmd, hcode, herr⟩
    · simp [prepareUploadedFileForPrinting, hmd, herr, hfb]
    · simp [prepareUploadedFileForPrinting, hmd, hcode, herr, hfb]
  · intro env req e' hext hsize hprep
    have hprep' : prepareUploadedFileForPrinting cfg env.render
        (mkRenderOptions req ((saveUploadedFile env req.filename req.content req.encoding).1.2))
        = Except.error e' := hprep
    constructor
    · simp [uploadAndPrint, hext, hsize, hprep']
    · intro f p c o
      simp [uploadAndPrint, hext, hsize, hprep, hprep', saveUploadedFile, cleanupUpload]

/-- Witness for C7: with fallback disabled, the failed markdown render
propagates out of prepareUploadedFileForPrinting. -/
theorem render_failure_fallback_policy_witness :
    prepareUploadedFileForPrinting upCfgNoFallback renvFailW optsMdW = .error "chrome missing" :=
  (render_failure_fallback_policy upCfgNoFallback renvFailW optsMdW "chrome missing"
    (Or.inl ⟨by decide, rfl⟩)).2.1 rfl

/-- Helper: after the close listener removes a session, looking it up
fails. -/
theorem lookupSession_unregister (reg : List (String × Nat)) (sid : String) :
    lookupSession (unregisterSession reg sid) sid = none := by
  induction reg with
  | nil => rfl
  | cons p rest ih =>
    by_cases h : p.1 = sid
    · simpa [unregisterSession, h] using ih
    · simpa [unregisterSession, lookupSession, h] using ih

/-- Claim C9: a message without a session identifier (absent or empty
header) is rejected as a missing-header error and forwarded to no transport;
a message whose identifier is not registered — in particular any identifier
whose registry entry was removed when its connection closed — is rejected as
session-not-found and forwarded to no transport; and a message with a
registered identifier is forwarded exactly to that session's handle, with a
thrown handler error converted to the internal-error response rather than a
crash. -/
theorem http_message_session_routing
    (reg : List (String × Nat)) (ho : Except String Unit) :
    (handleMessage reg none ho = (.missingHeader, none)
      ∧ handleMessage reg (some "") ho = (.missingHeader, none))
    ∧ (∀ s, s ≠ "" → lookupSession reg s = none →
        handleMessage reg (some s) ho = (.sessionNotFound, none))
    ∧ (∀ s, s ≠ "" →
        handleMessage (unregisterSession reg s) (some s) ho = (.sessionNotFound, none))
    ∧ (∀ s h, s ≠ "" → lookupSession reg s = some h →
        (handleMessage reg (some s) ho).2 = some h
        ∧ ((handleMessage reg (some s) ho).1 = .handled
           ∨ (handleMessage reg (some s) ho).1 = .internalError)) := by
  refine ⟨⟨rfl, rfl⟩, ?_, ?_, ?_⟩
  · intro s hs hl
    simp [handleMessage, hs, hl]
  · intro s hs
    simp only [handleMessage]
    rw [if_neg hs, lookupSession_unregister]
  · intro s h hs hl
    cases ho with
    | ok u => exact ⟨by simp [handleMessage, hs, hl], Or.inl (by simp [handleMessage, hs, hl])⟩
    | error m => exact ⟨by simp [handleMessage, hs, hl], Or.inr (by simp [handleMessage, hs, hl])⟩

/-- Witness for C9: in a registry holding sessions s1 and s2, a message
tagged s2 is forwarded to s2's handle, and a message tagged with the removed
identifier s1 is rejected as session-not-found. -/
theorem http_message_session_routing_witness :
    (handleMessage [( "s1", 7), ( "s2", 9)] (some "s2") (.ok ())).2 = some 9
    ∧ handleMessage (unregisterSession [( "s1", 7), ( "s2", 9)] "s1") (some "s1") (.ok ())
        = (.sessionNotFound, none) :=
  ⟨((http_message_session_routing [( "s1", 7), ( "s2", 9)] (.ok ())).2.2.2 "s2" 9
      (by decide) (by decide)).1,
    (http_message_session_routing [( "s1", 7), ( "s2", 9)] (.ok ())).2.2.1 "s1" (by decide)⟩

/-- Claim C10: the size estimate of validateUploadSize is conservative — for
base64 content the estimate dominates the decoded byte count, for text
content it equals the UTF-8 byte count — so every upload that passes the
size check writes a file of at most the configured maximum size. -/
theorem upload_size_estimate_conservative
    (cfg : UploadConfig) (content : String) (enc : Encoding) :
    writtenByteLength content enc ≤ uploadByteSize content enc
    ∧ writtenByteLength content .utf8 = uploadByteSize content .utf8
    ∧ (validateUploadSize cfg content enc = .ok () →
        writtenByteLength content enc ≤ cfg.maxUploadSize) := by
  have hle : writtenByteLength content enc ≤ uploadByteSize content enc := by
    cases enc with
    | utf8 => exact Nat.le_refl _
    | base64 =>
      show base64DecodedLength content ≤ (content.length * 3 + 3) / 4
      have hm : (content.data.filter isBase64Char).length ≤ content.length :=
        List.length_filter_le isBase64Char content.data
      have key : ∀ m L : Nat, m ≤ L →
          3 * (m / 4) + base64PadLength (m % 4) ≤ (L * 3 + 3) / 4 := by
        intro m L hmL
        have h4 : m % 4 = 0 ∨ m % 4 = 1 ∨ m % 4 = 2 ∨ m % 4 = 3 := by omega
        rcases h4 with h | h | h | h <;> rw [h] <;> simp [base64PadLength] <;> omega
      have hb : base64DecodedLength content
          = 3 * ((content.data.filter isBase64Char).length / 4)
            + base64PadLength ((content.data.filter isBase64Char).length % 4) := rfl
      rw [hb]
      exact key _ _ hm
  refine ⟨hle, rfl, ?_⟩
  intro hok
  by_cases hgt : cfg.maxUploadSize < uploadByteSize content enc
  · have : validateUploadSize cfg content enc
        = .error (.sizeExceeded (uploadByteSize content enc) cfg.maxUploadSize) := by
      simp [validateUploadSize, hgt]
    rw [this] at hok
    exact Except.noConfusion hok
  · exact Nat.le_trans hle (Nat.le_of_not_lt hgt)

/-- Witness for C10: the four-character base64 content QUJD decodes to three
bytes, the estimate is three, and with a three-byte maximum the size check
passes and the written file is within the maximum. -/
theorem upload_size_estimate_conservative_witness :
    writtenByteLength "QUJD" .base64
      ≤ ({ upCfgW with maxUploadSize := 3 } : UploadConfig).maxUploadSize :=
  (upload_size_estimate_conservative { upCfgW with maxUploadSize := 3 } "QUJD" .base64).2.2 rfl
